import Mathlib

/-!
Shallow embedding of the jClock repository (src/clock/config_manager.py,
src/clock/clock.py, src/clock/system_tray.py) for checking the
natural-language specification against the code.

Python machine-level externals (str.strip, str.split, int(), float(),
round(), configparser's document) are modelled as executable Lean
functions over List Char, Int and Rat; the configparser document is an
association list of sections, each an association list of keys to raw
string values (interpolation is disabled in the source; the DEFAULT
section fallback and option-name lowercasing of configparser are not
exercised by any claim and are not modelled).
-/

namespace JClock

/-! ### Python string primitives -/

/-- Characters removed by Python str.strip() with no argument. -/
def pyIsSpace (c : Char) : Bool :=
  c = ' ' || c = '\t' || c = '\n' || c = '\r' || c = '\x0b' || c = '\x0c'

/-- Python str.strip() on a character list. -/
def pyStripChars (cs : List Char) : List Char :=
  ((cs.dropWhile pyIsSpace).reverse.dropWhile pyIsSpace).reverse

/-- Python str.strip(). -/
def pyStrip (s : String) : String :=
  String.mk (pyStripChars s.data)

/-- Python str.lower() (ASCII, as used by the source). -/
def pyLower (s : String) : String :=
  String.mk (s.data.map Char.toLower)

/-- Python str.lstrip("0"): drop every leading zero character. -/
def pyLstripZeros (s : String) : String :=
  String.mk (s.data.dropWhile (fun c => c = '0'))

/-- Everything before the first occurrence of sep; the whole list when sep
is absent.  Models s.split(sep)[0]. -/
def takeUntil (sep : Char) : List Char → List Char
  | [] => []
  | c :: cs => if c = sep then [] else c :: takeUntil sep cs

/-- Everything after the first occurrence of sep, or none when sep is
absent.  Together with takeUntil this models s.split(sep, 1). -/
def dropThrough (sep : Char) : List Char → Option (List Char)
  | [] => none
  | c :: cs => if c = sep then some cs else dropThrough sep cs

/-- Python s.split(sep) with an explicit one-character separator: keeps
empty parts, and the split of the empty string is one empty part. -/
def splitChar (sep : Char) : List Char → List (List Char)
  | [] => [[]]
  | c :: cs =>
    if c = sep then [] :: splitChar sep cs
    else
      match splitChar sep cs with
      | [] => [[c]]
      | p :: ps => (c :: p) :: ps

/-- Is sub a contiguous substring?  Models Python's "sub in s". -/
def containsSeq (sub : List Char) : List Char → Bool
  | [] => sub.isEmpty
  | c :: cs => sub.isPrefixOf (c :: cs) || containsSeq sub cs

/-- Python "sub in s" on strings. -/
def pyContains (sub s : String) : Bool :=
  containsSeq sub.data s.data

/-! ### Python int() and float() parsing (decimal subset; the underscore
separators and inf/nan literals accepted by Python never appear in the
claims and are not modelled) -/

def pyIsDigit (c : Char) : Bool := '0' ≤ c && c ≤ '9'

def digitsToNat (ds : List Char) : Nat :=
  ds.foldl (fun a c => a * 10 + (c.toNat - '0'.toNat)) 0

/-- Parse a nonempty all-digit list. -/
def parseDigits (cs : List Char) : Option Nat :=
  if cs.isEmpty then none
  else if cs.all pyIsDigit then some (digitsToNat cs) else none

/-- Python int(s): surrounding whitespace, optional sign, digits. -/
def pyIntOfChars (cs : List Char) : Option Int :=
  match pyStripChars cs with
  | '+' :: ds => (parseDigits ds).map (fun n => (n : Int))
  | '-' :: ds => (parseDigits ds).map (fun n => -(n : Int))
  | ds => (parseDigits ds).map (fun n => (n : Int))

/-- Python int(s) on strings. -/
def pyInt (s : String) : Option Int :=
  pyIntOfChars s.data

/-- Mantissa of a Python float literal: digits, or digits.digits, or
.digits, with at least one digit; returns the integer-part value, the
fraction-part value, the fraction length, and the rest of the input. -/
def parseMantissaParts (cs : List Char) : Option ((Nat × Nat × Nat) × List Char) :=
  let ip := cs.takeWhile pyIsDigit
  let r1 := cs.dropWhile pyIsDigit
  match r1 with
  | '.' :: r2 =>
    let fp := r2.takeWhile pyIsDigit
    let r3 := r2.dropWhile pyIsDigit
    if ip.isEmpty && fp.isEmpty then none
    else some ((digitsToNat ip, digitsToNat fp, fp.length), r3)
  | _ => if ip.isEmpty then none else some ((digitsToNat ip, 0, 0), r1)

/-- Exponent suffix of a Python float literal: empty, or e/E with an
optional sign and digits. -/
def parseExponent : List Char → Option Int
  | [] => some 0
  | e :: rest =>
    if e = 'e' || e = 'E' then
      match rest with
      | '+' :: ds => (parseDigits ds).map (fun n => (n : Int))
      | '-' :: ds => (parseDigits ds).map (fun n => -(n : Int))
      | ds => (parseDigits ds).map (fun n => (n : Int))
    else none

/-- The syntactic part of Python float(s): surrounding whitespace, an
optional sign, the mantissa, an optional exponent; yields
(sign, integer part, fraction value, fraction length, exponent). -/
def pyFloatParts (cs : List Char) : Option (Int × Nat × Nat × Nat × Int) :=
  let signed : Int × List Char :=
    match pyStripChars cs with
    | '+' :: r => (1, r)
    | '-' :: r => (-1, r)
    | r => (1, r)
  match parseMantissaParts signed.2 with
  | none => none
  | some mr =>
    match parseExponent mr.2 with
    | none => none
    | some e => some (signed.1, mr.1.1, mr.1.2.1, mr.1.2.2, e)

/-- The rational value of a parsed float literal:
sign * (intpart + fraction / 10 ^ fraclen) * 10 ^ exponent. -/
def partsValue (p : Int × Nat × Nat × Nat × Int) : ℚ :=
  (p.1 : ℚ) * ((p.2.1 : ℚ) + (p.2.2.1 : ℚ) / (10 : ℚ) ^ p.2.2.2.1) * (10 : ℚ) ^ p.2.2.2.2

/-- Python float(s), with decimal values modelled exactly as rationals. -/
def pyFloatOfChars (cs : List Char) : Option ℚ :=
  (pyFloatParts cs).map partsValue

/-- Python float(s) on strings. -/
def pyFloat (s : String) : Option ℚ :=
  pyFloatOfChars s.data

/-- Python round() to an integer: nearest, ties to even. -/
def pyRound (q : ℚ) : Int :=
  let f := ⌊q⌋
  let r := q - (f : ℚ)
  if r < 1 / 2 then f
  else if 1 / 2 < r then f + 1
  else if 2 ∣ f then f else f + 1

/-- Python int() applied to a float: truncation toward zero. -/
def pyTrunc (q : ℚ) : Int :=
  if 0 ≤ q then ⌊q⌋ else -⌊-q⌋

/-! ### The configuration document (ClockSettings.config) -/

/-- A parsed configuration document: sections to key/value maps, first
match wins, exactly what the accessors of ClockSettings observe. -/
abbrev Config := List (String × List (String × String))

/-- Raw lookup: none when the section or the key is absent.  Collapses
the has_section / has_option / get chain of the source. -/
def configGetRaw (cfg : Config) (sec key : String) : Option String :=
  match cfg.lookup sec with
  | none => none
  | some ps => ps.lookup key

/-- ClockSettings.get (config_manager.py:79-89): raw value, or the
stringified default when the section or key is absent.  Callers pass the
default already stringified (Python str(default)). -/
def get (cfg : Config) (sec key : String) (default : String) : String :=
  match configGetRaw cfg sec key with
  | none => default
  | some v => v

/-- Strip an inline ";comment" then surrounding whitespace:
value.split(';')[0].strip() as used by get_float/get_bool/get_color. -/
def stripInlineComment (s : String) : String :=
  pyStrip (String.mk (takeUntil ';' s.data))

/-- ClockSettings.get_int (config_manager.py:91-96): configparser getint,
i.e. int() on the raw value; any failure (missing section, missing key,
unparsable value) is swallowed by the bare except and yields the default. -/
def get_int (cfg : Config) (sec key : String) (default : Int) : Int :=
  match configGetRaw cfg sec key with
  | none => default
  | some v =>
    match pyInt v with
    | none => default
    | some n => n

/-- ClockSettings.get_float (config_manager.py:98-106): reads via get with
str(default) (passed here as defaultStr), strips an inline comment, then
float(); ValueError/TypeError yield the default. -/
def get_float (cfg : Config) (sec key : String) (defaultStr : String) (default : ℚ) : ℚ :=
  match pyFloat (stripInlineComment (get cfg sec key defaultStr)) with
  | none => default
  | some q => q

/-- The truthy strings of get_bool. -/
def boolTokens : List String := ["true", "yes", "1", "on", "t"]

/-- Python str() of a bool. -/
def pyStrBool (b : Bool) : String := if b then "True" else "False"

/-- ClockSettings.get_bool (config_manager.py:108-115): reads via get with
str(default), strips an inline comment, lowercases, then tests membership
in the truthy set.  The membership test is total, so the surrounding
try/except can never fire. -/
def get_bool (cfg : Config) (sec key : String) (default : Bool) : Bool :=
  boolTokens.contains (pyLower (stripInlineComment (get cfg sec key (pyStrBool default))))

/-- Comma-split the cleaned color value and int() each piece
(int() itself strips, subsuming the x.strip() of the source). -/
def parseColorInts (v : String) : Option (List Int) :=
  (splitChar ',' v.data).mapM pyIntOfChars

/-- Pad the parsed channel list with 255 up to four entries and keep the
first four: the while-append loop and tuple(color[:4]) of the source. -/
def padColor : List Int → Int × Int × Int × Int
  | [] => (255, 255, 255, 255)
  | [a] => (a, 255, 255, 255)
  | [a, b] => (a, b, 255, 255)
  | [a, b, c] => (a, b, c, 255)
  | a :: b :: c :: d :: _ => (a, b, c, d)

/-- ClockSettings.get_color (config_manager.py:117-127): get with default
None (str(None) = "None"), strip inline comment, comma-split, int() each
token, pad to four channels with 255; any failure yields the fixed
fallback (255,255,255,255). -/
def get_color (cfg : Config) (sec key : String) : Int × Int × Int × Int :=
  match parseColorInts (stripInlineComment (get cfg sec key "None")) with
  | none => (255, 255, 255, 255)
  | some cs => padColor cs

/-! ### Watcher list (add_watcher / remove_watcher) -/

/-- Callback identity: Python compares watcher callbacks by object
identity, so a callback is just its identity here. -/
abbrev WatcherId := Nat

/-- ClockSettings.add_watcher (config_manager.py:129-132): append unless
already present. -/
def add_watcher (ws : List WatcherId) (cb : WatcherId) : List WatcherId :=
  if cb ∈ ws then ws else ws ++ [cb]

/-- ClockSettings.remove_watcher (config_manager.py:134-137): remove the
first occurrence when present. -/
def remove_watcher (ws : List WatcherId) (cb : WatcherId) : List WatcherId :=
  if cb ∈ ws then ws.erase cb else ws

/-! ### Settings-file polling (_check_file_changes) -/

/-- The mutable poll state: the last-seen modification time. -/
structure PollState where
  last_modified : ℚ

/-- ClockSettings._check_file_changes (config_manager.py:54-64) at one
tick, given the file's current mtime: when strictly newer than last-seen,
update last-seen and fire (the source then calls load() and notifies all
watchers); otherwise do nothing.  The returned Bool is that single
reload-and-notify event. -/
def check_file_changes (st : PollState) (current_mtime : ℚ) : PollState × Bool :=
  if st.last_modified < current_mtime then ({ last_modified := current_mtime }, true)
  else (st, false)

/-- Run the once-per-second poll over a sequence of observed mtimes,
recording at each tick whether a reload-and-notify fired. -/
def pollRun (st : PollState) : List ℚ → List Bool
  | [] => []
  | m :: ms =>
    let step := check_file_changes st m
    step.2 :: pollRun step.1 ms

/-- Fires exactly at the ticks whose mtime strictly advanced over the
previous tick's mtime: the observable change points of the file. -/
def pollFires (prev : ℚ) : List ℚ → List Bool
  | [] => []
  | m :: ms => decide (prev < m) :: pollFires m ms

/-! ### Geometry (ClockGeometry, clock.py:78-150) -/

/-- The per-construction geometry context: the dpi scale fixed by
_get_dpi_scale, and the font-metrics collaborators (horizontalAdvance and
height) used by calculate_text_size. -/
structure GeomCtx where
  dpi_scale : ℚ
  advance : String → Int
  text_height : Int

/-- ClockGeometry.calculate_padding (clock.py:106-109):
int(base_padding * dpi_scale) with base_padding = 10.  Note int() is
truncation toward zero, not rounding. -/
def calculate_padding (dpi_scale : ℚ) : Int :=
  pyTrunc (10 * dpi_scale)

/-- ClockGeometry.calculate_shadow_space (clock.py:111-120): scale each
input by dpi_scale and truncate, then reserve twice the larger of the
offset magnitude and the blur on each axis. -/
def calculate_shadow_space (dpi_scale : ℚ) (blur offset_x offset_y : Int) : Int × Int :=
  let b := pyTrunc ((blur : ℚ) * dpi_scale)
  let ox := pyTrunc ((offset_x : ℚ) * dpi_scale)
  let oy := pyTrunc ((offset_y : ℚ) * dpi_scale)
  (max |ox| b * 2, max |oy| b * 2)

/-- ClockGeometry.calculate_text_size (clock.py:101-104). -/
def calculate_text_size (g : GeomCtx) (text : String) : Int × Int :=
  (g.advance text, g.text_height)

/-- ClockGeometry.calculate_total_size (clock.py:122-150): text size plus
padding on both sides of each axis, plus shadow space when and only when
styling.shadow_enabled reads true (default true). -/
def calculate_total_size (g : GeomCtx) (cfg : Config) (text : String) : Int × Int :=
  let ts := calculate_text_size g text
  let p := calculate_padding g.dpi_scale
  let sxy :=
    if get_bool cfg "styling" "shadow_enabled" true then
      calculate_shadow_space g.dpi_scale
        (get_int cfg "styling" "shadow_blur" 2)
        (get_int cfg "styling" "shadow_offset_x" 2)
        (get_int cfg "styling" "shadow_offset_y" 2)
    else (0, 0)
  (ts.1 + p * 2 + sxy.1, ts.2 + p * 2 + sxy.2)

/-! ### Position resolution (ClockSettings._apply_position,
config_manager.py:237-272) -/

/-- The window's mutable geometry: position (set by move) and fixed size. -/
structure WindowState where
  x : Int
  y : Int
  w : Int
  h : Int

/-- The inputs of one position resolution that do not belong to the
window: target screen rectangle and the measured text extents. -/
structure PosCtx where
  screen_x : Int
  screen_y : Int
  screen_w : Int
  screen_h : Int
  main_width : Int
  seconds_width : Int
  text_height : Int

/-- ClockSettings._apply_position: place the text anchor at the
percentage position of the screen rectangle, then back-compute the
window's top-left so the text (not the padded box) lands there, rounding
with Python round() for the final move().  Only the window position is
written; its size is read. -/
def apply_position (cfg : Config) (ctx : PosCtx) (win : WindowState) : WindowState :=
  let pos_x := get_float cfg "window" "position_x" "50" 50
  let pos_y := get_float cfg "window" "position_y" "50" 50
  let total : ℚ := ((ctx.main_width + ctx.seconds_width : Int) : ℚ)
  let text_x : ℚ := (ctx.screen_x : ℚ) + ((ctx.screen_w : ℚ) - total) * pos_x / 100
  let text_y : ℚ := (ctx.screen_y : ℚ) + ((ctx.screen_h : ℚ) - (ctx.text_height : ℚ)) * pos_y / 100
  let offset_x : ℚ := ((win.w : ℚ) - total) / 2
  let offset_y : ℚ := ((win.h : ℚ) - (ctx.text_height : ℚ)) / 2
  { win with x := pyRound (text_x - offset_x), y := pyRound (text_y - offset_y) }

/-! ### Time formatting (FloatingClock.update_time, clock.py:366-402) -/

/-- A wall-clock time of day as observed by datetime.now(). -/
structure TimeOfDay where
  hour : Nat
  minute : Nat
  second : Nat

/-- The 12-hour clock value of strftime %I before padding. -/
def hour12 (h : Nat) : Nat :=
  if h % 12 = 0 then 12 else h % 12

/-- Zero-pad to two digits, as strftime does for %I %H %M %S. -/
def pad2 (n : Nat) : String :=
  if n < 10 then "0" ++ toString n else toString n

/-- One strftime directive.  Only the directives the source's format
strings can exercise for these claims are modelled; an unknown directive
is passed through verbatim. -/
def strfDirective (t : TimeOfDay) (c : Char) : List Char :=
  if c = 'I' then (pad2 (hour12 t.hour)).data
  else if c = 'H' then (pad2 t.hour).data
  else if c = 'M' then (pad2 t.minute).data
  else if c = 'S' then (pad2 t.second).data
  else if c = 'p' then (if t.hour < 12 then ['A', 'M'] else ['P', 'M'])
  else ['%', c]

/-- The strftime scan: percent-directive pairs expand, everything else is
literal. -/
def strftimeAux (t : TimeOfDay) : List Char → List Char
  | [] => []
  | '%' :: c :: rest => strfDirective t c ++ strftimeAux t rest
  | c :: rest => c :: strftimeAux t rest

/-- Python datetime.strftime for the modelled directives. -/
def strftime (t : TimeOfDay) (fmt : String) : String :=
  String.mk (strftimeAux t fmt.data)

/-- The text part of FloatingClock.update_time: read both format strings
(settings.get with default None, hence "None" when absent), format the
time, and strip leading zeros from the main text when the main format
contains %I, and from the seconds text when the seconds format contains
%I — each text independently. -/
def update_time_texts (cfg : Config) (t : TimeOfDay) : String × String :=
  let time_format := get cfg "format" "time_format" "None"
  let seconds_format := get cfg "format" "time_seconds_format" "None"
  if pyContains "%I" time_format then
    (pyLstripZeros (strftime t time_format),
      if pyContains "%I" seconds_format then pyLstripZeros (strftime t seconds_format)
      else strftime t seconds_format)
  else
    (strftime t time_format, strftime t seconds_format)

/-! ### Tray-toggle rewrite (toggle_tray_setting, system_tray.py:86-123) -/

/-- Does the stripped line look like a section header:
line.startswith("[") and line.endswith("]"). -/
def isSectionLine (cs : List Char) : Bool :=
  cs.head? = some '[' && cs.getLast? = some ']'

/-- The section name of a header line: line[1:-1]. -/
def sectionName (cs : List Char) : List Char :=
  (cs.drop 1).dropLast

/-- Python str(value).lower() for a bool. -/
def pyStrBoolLower (b : Bool) : String :=
  if b then "true" else "false"

/-- The replacement line the toggle writes for a matched key line, built
from the STRIPPED original line: base is everything before the first "="
of the part before the first ";" (trailing spaces of the stripped line
kept), then "= ", the lowercased value, the ";"-comment of the stripped
line when present, and a newline. -/
def toggledLine (stripped : List Char) (value : Bool) : List Char :=
  let base := takeUntil '=' (takeUntil ';' stripped)
  let comment : List Char :=
    match dropThrough ';' stripped with
    | none => []
    | some rest => ';' :: rest
  base ++ ('=' :: ' ' :: (pyStrBoolLower value).data) ++ comment ++ ['\n']

/-- The line scan of toggle_tray_setting: track the current section from
header lines; in the right section, the first line whose text before the
first "=" strips to the key is replaced by toggledLine of its stripped
form, and the loop breaks, leaving every later line untouched. -/
def toggle_lines (sec key : String) (value : Bool) : List (List Char) → List Char → List (List Char)
  | [], _ => []
  | l :: ls, cur =>
    if isSectionLine (pyStripChars l) then
      l :: toggle_lines sec key value ls (sectionName (pyStripChars l))
    else if cur = sec.data ∧ pyStripChars (takeUntil '=' (pyStripChars l)) = key.data then
      toggledLine (pyStripChars l) value :: ls
    else l :: toggle_lines sec key value ls cur

/-- toggle_tray_setting on the file's lines (readlines/writelines round
trip; only the settings re-application side effects are omitted). -/
def toggle_tray_setting (key sec : String) (value : Bool) (lines : List String) : List String :=
  (toggle_lines sec key value (lines.map String.data) []).map String.mk

/-- The index of the line toggle_lines rewrites, when any: the first
key match reached while scanning with the same section tracking. -/
def toggleIndex (sec key : String) : List (List Char) → List Char → Option Nat
  | [], _ => none
  | l :: ls, cur =>
    if isSectionLine (pyStripChars l) then
      (toggleIndex sec key ls (sectionName (pyStripChars l))).map Nat.succ
    else if cur = sec.data ∧ pyStripChars (takeUntil '=' (pyStripChars l)) = key.data then some 0
    else (toggleIndex sec key ls cur).map Nat.succ

/-! ### Shutdown (FloatingClock.closeEvent, clock.py:432-448) -/

/-- The pieces of FloatingClock state that closeEvent touches. -/
structure CloseState where
  timer_active : Bool
  mouse_timer_active : Bool
  fullscreen_timer_active : Bool
  tray_visible : Bool
  watchers : List WatcherId

/-- The FloatingClock state right after __init__: all timers running, the
tray shown, and the startup watcher lambda registered
(settings.add_watcher at clock.py:297). -/
def initCloseState (startup_cb : WatcherId) : CloseState :=
  { timer_active := true
    mouse_timer_active := true
    fullscreen_timer_active := true
    tray_visible := true
    watchers := add_watcher [] startup_cb }

/-- FloatingClock.closeEvent: hide the tray, stop the three timers, and
call remove_watcher — with a freshly created lambda (clock.py:445), whose
identity fresh_cb is distinct from every previously created callback, in
particular from the one registered at startup. -/
def closeEvent (fresh_cb : WatcherId) (st : CloseState) : CloseState :=
  { timer_active := false
    mouse_timer_active := false
    fullscreen_timer_active := false
    tray_visible := false
    watchers := remove_watcher st.watchers fresh_cb }

/-! ### Concrete inputs used by witnesses and counterexamples -/

/-- A one-section document whose only key holds an unparsable value. -/
def cfgBad : Config := [("s", [("k", "abc")])]

/-- A document holding the three raw color values of the spec's
round-trip property. -/
def cfgColors : Config :=
  [("styling", [("c3", "10,20,30"), ("c4", "10,20,30,40"), ("bad", "octarine"), ("c5", "1,2,3,4,5")])]

/-- A document with the claim C7 time formats. -/
def cfgFormats : Config :=
  [("format", [("time_format", "%I:%M"), ("time_seconds_format", "%S")])]

/-- Shadow disabled, blur 3. -/
def cfgShadowA : Config := [("styling", [("shadow_enabled", "false"), ("shadow_blur", "3")])]

/-- Shadow disabled, blur 9: differs from cfgShadowA only in shadow_blur. -/
def cfgShadowB : Config := [("styling", [("shadow_enabled", "false"), ("shadow_blur", "9")])]

/-- A concrete geometry context for witnesses. -/
def geomW : GeomCtx :=
  { dpi_scale := 1, advance := fun s => (s.length : Int) * 7, text_height := 20 }

/-- The configuration file of the C5 counterexample: an indented key line
with an inline comment, inside the window section. -/
def linesC5 : List String :=
  ["[window]\n", "  always_on_top = true ; keep\n"]

/-! ## Helper lemmas -/

/-- The poll loop fires exactly at the ticks whose observed mtime
strictly exceeds the previous tick's, provided observed mtimes never
decrease over time. -/
theorem pollRun_eq_pollFires (ms : List ℚ) :
    ∀ m₀ : ℚ, List.Chain (· ≤ ·) m₀ ms → pollRun ⟨m₀⟩ ms = pollFires m₀ ms := by
  induction ms with
  | nil => intro m₀ _; rfl
  | cons m ms ih =>
    intro m₀ h
    cases h with
    | cons h₁ h₂ =>
      by_cases hlt : m₀ < m
      · simp [pollRun, check_file_changes, pollFires, hlt, ih m h₂]
      · have heq : m₀ = m := le_antisymm h₁ (not_lt.mp hlt)
        subst heq
        simp [pollRun, check_file_changes, pollFires, hlt, ih m₀ h₂]

/-- Typed boolean reads agree on documents that agree at the read key. -/
theorem get_bool_congr (cfg1 cfg2 : Config) (sec key : String) (d : Bool)
    (h : configGetRaw cfg1 sec key = configGetRaw cfg2 sec key) :
    get_bool cfg1 sec key d = get_bool cfg2 sec key d := by
  unfold get_bool get
  rw [h]

/-- The two shadow witness documents agree everywhere but at
styling.shadow_blur. -/
theorem cfgShadow_agree :
    ∀ s k : String,
      ¬(s = "styling" ∧ (k = "shadow_blur" ∨ k = "shadow_offset_x" ∨ k = "shadow_offset_y")) →
      configGetRaw cfgShadowA s k = configGetRaw cfgShadowB s k := by
  intro s k hk
  by_cases hs : s = "styling"
  · subst hs
    by_cases hk1 : k = "shadow_enabled"
    · subst hk1
      decide
    · by_cases hk2 : k = "shadow_blur"
      · exact absurd ⟨rfl, Or.inl hk2⟩ hk
      · have h1 : (k == "shadow_enabled") = false := beq_eq_false_iff_ne.mpr hk1
        have h2 : (k == "shadow_blur") = false := beq_eq_false_iff_ne.mpr hk2
        simp [configGetRaw, cfgShadowA, cfgShadowB, List.lookup, h1, h2]
  · have h0 : (s == "styling") = false := beq_eq_false_iff_ne.mpr hs
    simp [configGetRaw, cfgShadowA, cfgShadowB, List.lookup, h0]

/-! ## Claim theorems -/

/-- C1: for every section, key and caller-supplied default, each typed
accessor (get_int, get_float, get_bool, and get_color with its fixed
default) returns exactly the default whenever the entry is absent or its
raw string fails to parse under that accessor's rules; all accessors are
total functions, so no exception reaches the caller.  For get_float the
absent case threads str(default) through the parser, so it needs the
float round-trip fact float(str(d)) = d as a hypothesis; get_bool's
rule (membership in the truthy set) is total, so its only failure mode
is absence. -/
theorem c1_typed_accessors_default (cfg : Config) (sec key : String) :
    (∀ d : Int, configGetRaw cfg sec key = none → get_int cfg sec key d = d)
  ∧ (∀ (v : String) (d : Int), configGetRaw cfg sec key = some v → pyInt v = none →
      get_int cfg sec key d = d)
  ∧ (∀ (dStr : String) (d : ℚ), pyFloat (stripInlineComment dStr) = some d →
      configGetRaw cfg sec key = none → get_float cfg sec key dStr d = d)
  ∧ (∀ (v dStr : String) (d : ℚ), configGetRaw cfg sec key = some v →
      pyFloat (stripInlineComment v) = none → get_float cfg sec key dStr d = d)
  ∧ (∀ d : Bool, configGetRaw cfg sec key = none → get_bool cfg sec key d = d)
  ∧ (configGetRaw cfg sec key = none → get_color cfg sec key = (255, 255, 255, 255))
  ∧ (∀ v : String, configGetRaw cfg sec key = some v →
      parseColorInts (stripInlineComment v) = none →
      get_color cfg sec key = (255, 255, 255, 255)) := by
  refine ⟨?_, ?_, ?_, ?_, ?_, ?_, ?_⟩
  · intro d h
    simp [get_int, h]
  · intro v d hv hp
    simp [get_int, hv, hp]
  · intro dStr d hd h
    simp [get_float, get, h, hd]
  · intro v dStr d hv hp
    simp [get_float, get, hv, hp]
  · intro d h
    cases d <;> simp [get_bool, get, h] <;> decide
  · intro h
    simp [get_color, get, h]
    decide
  · intro v hv hp
    simp [get_color, get, hv, hp]

/-- Witness for C1 on a concrete document: absent keys and an unparsable
raw value, for each accessor. -/
theorem c1_witness :
    get_int cfgBad "s" "nope" 7 = 7
  ∧ get_int cfgBad "s" "k" 5 = 5
  ∧ get_float cfgBad "s" "nope" "0.5" (1 / 2) = 1 / 2
  ∧ get_float cfgBad "s" "k" "0.5" (1 / 2) = 1 / 2
  ∧ get_bool cfgBad "s" "nope" true = true
  ∧ get_color cfgBad "s" "nope" = (255, 255, 255, 255)
  ∧ get_color cfgBad "s" "k" = (255, 255, 255, 255) := by
  have A := c1_typed_accessors_default cfgBad "s" "nope"
  have B := c1_typed_accessors_default cfgBad "s" "k"
  have hrt : pyFloat (stripInlineComment "0.5") = some (1 / 2) := by
    have hp : pyFloatParts (stripInlineComment "0.5").data = some (1, 0, 5, 1, 0) := by decide
    simp [pyFloat, pyFloatOfChars, hp, partsValue]
    norm_num
  exact ⟨A.1 7 rfl, B.2.1 "abc" 5 rfl (by decide), A.2.2.1 "0.5" (1 / 2) hrt rfl,
    B.2.2.2.1 "abc" "0.5" (1 / 2) rfl (by decide), A.2.2.2.2.1 true rfl,
    A.2.2.2.2.2.1 rfl, B.2.2.2.2.2.2 "abc" rfl (by decide)⟩

/-- C2: over any sequence of poll ticks whose observed file mtimes never
decrease, the store reloads-and-notifies exactly at the ticks whose
mtime strictly advanced over the previous tick's (once per actual
change, zero for a write that leaves the mtime unchanged), with the
initial last-seen value being the mtime read at startup; and a
notification never fires on a tick whose mtime is not strictly newer
than the last-seen value. -/
theorem c2_reload_once_per_change (m₀ : ℚ) (ms : List ℚ)
    (hmono : List.Chain (· ≤ ·) m₀ ms) :
    pollRun ⟨m₀⟩ ms = pollFires m₀ ms
  ∧ ∀ (st : PollState) (m : ℚ), (check_file_changes st m).2 = true → st.last_modified < m := by
  refine ⟨pollRun_eq_pollFires ms m₀ hmono, ?_⟩
  intro st m h
  by_cases hlt : st.last_modified < m
  · exact hlt
  · simp [check_file_changes, hlt] at h

/-- Witness for C2 on a concrete trace: a no-op tick, two changes, and a
repeated mtime fire exactly as the change points dictate. -/
theorem c2_witness : pollRun ⟨0⟩ [0, 1, 1, 2] = pollFires 0 [0, 1, 1, 2] :=
  (c2_reload_once_per_change 0 [0, 1, 1, 2]
    (.cons (by norm_num) (.cons (by norm_num) (.cons (by norm_num)
      (.cons (by norm_num) .nil))))).1

/-- C3: get_color parses the comment-stripped raw value as comma
separated integers, padding missing channels with 255: "10,20,30" gives
(10,20,30,255), "10,20,30,40" gives (10,20,30,40), and any raw value
with an unparsable token gives the fallback (255,255,255,255). -/
theorem c3_get_color_roundtrip (cfg : Config) (sec key : String) :
    (configGetRaw cfg sec key = some "10,20,30" → get_color cfg sec key = (10, 20, 30, 255))
  ∧ (configGetRaw cfg sec key = some "10,20,30,40" → get_color cfg sec key = (10, 20, 30, 40))
  ∧ (∀ v : String, configGetRaw cfg sec key = some v →
      parseColorInts (stripInlineComment v) = none →
      get_color cfg sec key = (255, 255, 255, 255)) := by
  refine ⟨?_, ?_, ?_⟩
  · intro h
    simp [get_color, get, h]
    decide
  · intro h
    simp [get_color, get, h]
    decide
  · intro v hv hp
    simp [get_color, get, hv, hp]

/-- Witness for C3 on a concrete document holding the three raw values. -/
theorem c3_witness :
    get_color cfgColors "styling" "c3" = (10, 20, 30, 255)
  ∧ get_color cfgColors "styling" "c4" = (10, 20, 30, 40)
  ∧ get_color cfgColors "styling" "bad" = (255, 255, 255, 255) := by
  have A := c3_get_color_roundtrip cfgColors "styling" "c3"
  have B := c3_get_color_roundtrip cfgColors "styling" "c4"
  have C := c3_get_color_roundtrip cfgColors "styling" "bad"
  exact ⟨A.1 (by decide), B.2.1 (by decide), C.2.2 "octarine" (by decide) (by decide)⟩

/-- C4: position resolution is idempotent: with the settings document,
screen rectangle, measured text extents and window size all fixed,
applying the position computation twice moves the window to the same
rounded coordinates as applying it once (the computation reads the
window's size, never its current position). -/
theorem c4_position_idempotent (cfg : Config) (ctx : PosCtx) (win : WindowState) :
    apply_position cfg ctx (apply_position cfg ctx win) = apply_position cfg ctx win := rfl

/-- C5 counterexample: on a file whose key line is indented and carries
an inline comment, the rewrite does not leave everything but the value
intact: the produced line "always_on_top = false; keep\n" differs from
"  always_on_top = false ; keep\n", the line that changing only the
value would give — the leading indentation and the blank before the
comment are dropped. -/
theorem c5_counterexample :
    toggle_tray_setting "always_on_top" "window" false linesC5
      = ["[window]\n", "always_on_top = false; keep\n"]
  ∧ ("always_on_top = false; keep\n" : String) ≠ "  always_on_top = false ; keep\n" := by
  constructor
  · decide
  · decide

/-- C5 (amended): the rewrite leaves every line other than the first
matching key line of the section byte-for-byte unchanged (when no line
matches, the whole file is unchanged); the matching line is replaced by
a line rebuilt from its stripped form — its text up to the first "=",
then "= ", the lowercased value, and its ";"-comment when present — so
the key text and the inline comment survive, but the line's leading
whitespace and the spacing around the value do not. -/
theorem c5_rewrite_frame (sec key : String) (value : Bool) (lines : List (List Char))
    (cur : List Char) :
    toggle_lines sec key value lines cur =
      match toggleIndex sec key lines cur with
      | none => lines
      | some i => lines.set i (toggledLine (pyStripChars (lines.getD i [])) value) := by
  induction lines generalizing cur with
  | nil => rfl
  | cons l ls ih =>
    by_cases hsec : isSectionLine (pyStripChars l) = true
    · rcases hidx : toggleIndex sec key ls (sectionName (pyStripChars l)) with _ | i
      · simp [toggle_lines, toggleIndex, hsec, hidx, ih]
      · simp [toggle_lines, toggleIndex, hsec, hidx, ih]
    · by_cases hkey : cur = sec.data ∧ pyStripChars (takeUntil '=' (pyStripChars l)) = key.data
      · simp [toggle_lines, toggleIndex, hsec, hkey]
      · rcases hidx : toggleIndex sec key ls cur with _ | i
        · simp [toggle_lines, toggleIndex, hsec, hkey, hidx, ih]
        · simp [toggle_lines, toggleIndex, hsec, hkey, hidx, ih]

/-- C6: the code contradicts the claim here.  closeEvent does stop the
three timers and hide the tray, but the watcher removal passes a freshly
created lambda — a callback identity distinct from the one registered in
init — so remove_watcher is a no-op and the startup watcher is STILL in
the settings store's watcher list after the close handler completes. -/
theorem c6_close_leaves_watcher (startup fresh : WatcherId) (hne : fresh ≠ startup) :
    (closeEvent fresh (initCloseState startup)).timer_active = false
  ∧ (closeEvent fresh (initCloseState startup)).mouse_timer_active = false
  ∧ (closeEvent fresh (initCloseState startup)).fullscreen_timer_active = false
  ∧ startup ∈ (closeEvent fresh (initCloseState startup)).watchers := by
  refine ⟨rfl, rfl, rfl, ?_⟩
  simp [closeEvent, initCloseState, add_watcher, remove_watcher, hne]

/-- Witness for C6 with concrete distinct callback identities. -/
theorem c6_witness :
    (closeEvent 1 (initCloseState 0)).timer_active = false
  ∧ (closeEvent 1 (initCloseState 0)).mouse_timer_active = false
  ∧ (closeEvent 1 (initCloseState 0)).fullscreen_timer_active = false
  ∧ 0 ∈ (closeEvent 1 (initCloseState 0)).watchers :=
  c6_close_leaves_watcher 0 1 (by decide)

/-- C7: with main format "%I:%M" and seconds format "%S", update_time at
14:05:09 renders main text "2:05" (leading zero stripped, because the
main format contains %I) and seconds text "09" (unstripped, because the
seconds format does not contain %I); each run is stripped on its own. -/
theorem c7_update_time_formats :
    update_time_texts cfgFormats ⟨14, 5, 9⟩ = ("2:05", "09") := by decide

/-- C8 counterexample: at dpi_scale 1.19, calculate_padding returns
int(10 * 1.19) = 11, while the claimed round(10 * 1.19) is 12 — the code
truncates, it does not round. -/
theorem c8_counterexample :
    calculate_padding (119 / 100 : ℚ) ≠ pyRound (10 * (119 / 100 : ℚ)) := by
  have hf : (⌊(10 : ℚ) * (119 / 100)⌋ : ℤ) = 11 := by norm_num
  have h1 : calculate_padding (119 / 100 : ℚ) = 11 := by
    unfold calculate_padding pyTrunc
    rw [if_pos (by norm_num)]
    exact hf
  have h2 : pyRound (10 * (119 / 100 : ℚ)) = 12 := by
    unfold pyRound
    rw [hf]
    rw [if_neg (by norm_num), if_pos (by norm_num)]
    decide
  rw [h1, h2]
  decide

/-- C8 (amended): for every nonnegative dpi_scale fixed at construction,
calculate_padding returns base_padding * dpi_scale truncated toward zero
(its floor, the scale being nonnegative), with base_padding = 10. -/
theorem c8_padding_truncates (dpi_scale : ℚ) (h : 0 ≤ dpi_scale) :
    calculate_padding dpi_scale = ⌊(10 : ℚ) * dpi_scale⌋ := by
  have h10 : (0 : ℚ) ≤ 10 * dpi_scale := by positivity
  unfold calculate_padding pyTrunc
  rw [if_pos h10]

/-- Witness for C8's amended statement at the counterexample's scale. -/
theorem c8_witness :
    (0 : ℚ) ≤ 119 / 100 ∧ calculate_padding (119 / 100 : ℚ) = ⌊(10 : ℚ) * (119 / 100)⌋ :=
  ⟨by norm_num, c8_padding_truncates (119 / 100) (by norm_num)⟩

/-- C9: for settings documents that agree on every key other than
styling.shadow_blur / shadow_offset_x / shadow_offset_y, and in which
shadow_enabled reads false, calculate_total_size returns the same
(width, height) for the same text: with the shadow disabled, the result
does not depend on the blur or offset values. -/
theorem c9_size_ignores_shadow_params (g : GeomCtx) (cfg1 cfg2 : Config) (text : String)
    (hagree : ∀ s k : String,
      ¬(s = "styling" ∧ (k = "shadow_blur" ∨ k = "shadow_offset_x" ∨ k = "shadow_offset_y")) →
      configGetRaw cfg1 s k = configGetRaw cfg2 s k)
    (hoff : get_bool cfg1 "styling" "shadow_enabled" true = false) :
    calculate_total_size g cfg1 text = calculate_total_size g cfg2 text := by
  have hb : configGetRaw cfg1 "styling" "shadow_enabled"
      = configGetRaw cfg2 "styling" "shadow_enabled" :=
    hagree _ _ (by simp)
  have hoff2 : get_bool cfg2 "styling" "shadow_enabled" true = false :=
    get_bool_congr cfg1 cfg2 "styling" "shadow_enabled" true hb ▸ hoff
  simp [calculate_total_size, hoff, hoff2]

/-- Witness for C9: two concrete documents differing only in
styling.shadow_blur, both with the shadow disabled, size the same
text identically. -/
theorem c9_witness :
    calculate_total_size geomW cfgShadowA "hi" = calculate_total_size geomW cfgShadowB "hi" :=
  c9_size_ignores_shadow_params geomW cfgShadowA cfgShadowB "hi" cfgShadow_agree (by decide)

/-- C10: when the comment-stripped raw value splits into five or more
tokens that all parse as integers, get_color returns the first four
parsed integers and silently discards the rest. -/
theorem c10_color_extra_channels (cfg : Config) (sec key v : String) (a b c d e : Int)
    (rest : List Int)
    (hv : configGetRaw cfg sec key = some v)
    (hp : parseColorInts (stripInlineComment v) = some (a :: b :: c :: d :: e :: rest)) :
    get_color cfg sec key = (a, b, c, d) := by
  simp [get_color, get, hv, hp, padColor]

/-- Witness for C10 on the concrete raw value "1,2,3,4,5". -/
theorem c10_witness : get_color cfgColors "styling" "c5" = (1, 2, 3, 4) :=
  c10_color_extra_channels cfgColors "styling" "c5" "1,2,3,4,5" 1 2 3 4 5 []
    (by decide) (by decide)

end JClock
